import Mathlib

/-!
Verification of the frame decoder in `src/ipmac/ipmac.c` (the ipmac
helper of minimega).  The C file exposes
  * `ether_mac`   — renders a 6-octet hardware address into a shared static
                    buffer via `sprintf("%02x:…:%02x", …)`;
  * `pcapRead`    — pulls one packet from the capture handle and, for
                    VLAN-tagged ARP / IPv6 Neighbor-Solicitation frames,
                    fills a freshly `malloc`ed `struct pair` whose string
                    fields point into process-wide buffers
                    (`mac_buffer`, `ip`, `ip6`);
  * `pcapFilter`  — compiles and installs a BPF filter.

The embedding below models the packet buffer as a total function from byte
offsets to byte values (the C pointer reads are unchecked, so every offset
yields some byte), models the three process-wide string buffers explicitly,
and models the `char *` fields of `struct pair` as pointers into those
buffers.  Formatting by libc `inet_ntop` is modelled after the glibc
implementation for both address families.
-/

namespace Ipmac

/-- Value of `ETHERTYPE_VLAN` from `net/ethernet.h`, compared against in
`pcapRead`. -/
def ETHERTYPE_VLAN : Nat := 0x8100

/-- Value of `ETHERTYPE_ARP` from `net/ethernet.h`. -/
def ETHERTYPE_ARP : Nat := 0x0806

/-- Value of `ETHERTYPE_IPV6` from `net/ethernet.h`. -/
def ETHERTYPE_IPV6 : Nat := 0x86dd

/-- A captured packet buffer: the byte the memory holds at each offset from
the packet pointer.  It is total because the C code performs no bounds
checking, so reads beyond the caller-declared frame length still observe
some byte of the underlying capture buffer. -/
abbrev Buf := Nat → Nat

/-- Big-endian 16-bit read: `ntohs` applied to the two bytes stored at
offsets `i` and `i+1` (network byte order puts the high octet first). -/
def be16 (buf : Buf) (i : Nat) : Nat := 256 * buf i + buf (i + 1)

/-- Lowercase hexadecimal digit characters, as emitted by the `%x`-family
conversions of `sprintf`. -/
def hexChar (n : Nat) : Char := "0123456789abcdef".toList.getD n 'x'

/-- Rendering of one octet by `sprintf "%02x"`: two lowercase hex digits
(for byte values, i.e. inputs below 256). -/
def hex2 (b : Nat) : String := String.mk [hexChar (b / 16), hexChar (b % 16)]

/-- String content that `ether_mac` in `ipmac.c` writes into `mac_buffer`:
`sprintf(mac_buffer, "%02x:%02x:%02x:%02x:%02x:%02x", octet[0], …, octet[5])`. -/
def ether_mac (a0 a1 a2 a3 a4 a5 : Nat) : String :=
  hex2 a0 ++ ":" ++ hex2 a1 ++ ":" ++ hex2 a2 ++ ":" ++ hex2 a3 ++ ":" ++
    hex2 a4 ++ ":" ++ hex2 a5

/-- Models libc `inet_ntop` with `AF_INET` (glibc `inet_ntop4`): dotted
decimal rendering `"%u.%u.%u.%u"` of the four octets. -/
def inet_ntop4 (a b c d : Nat) : String :=
  Nat.repr a ++ "." ++ Nat.repr b ++ "." ++ Nat.repr c ++ "." ++ Nat.repr d

/-- Zero-run bookkeeping of glibc `inet_ntop6`: replace the best run by the
current one exactly when the current run is strictly longer (so the first
longest run wins).  A run is an `(offset, length)` pair; `none` is the
`base == -1` sentinel of the C code. -/
def mergeBest (best cur : Option (Nat × Nat)) : Option (Nat × Nat) :=
  match cur with
  | none => best
  | some c =>
    match best with
    | none => some c
    | some b => if b.2 < c.2 then some c else some b

/-- One step of the scan in glibc `inet_ntop6` for the longest run of zero
16-bit words.  The state is `(current run, best run)`; `p` is
`(index, word)`. -/
def zeroRunStep (st : Option (Nat × Nat) × Option (Nat × Nat)) (p : Nat × Nat) :
    Option (Nat × Nat) × Option (Nat × Nat) :=
  if p.2 = 0 then
    match st.1 with
    | none => (some (p.1, 1), st.2)
    | some c => (some (c.1, c.2 + 1), st.2)
  else (none, mergeBest st.2 st.1)

/-- The best (first longest) run of zero words among the eight 16-bit words
of an IPv6 address, discarded when shorter than two words, exactly as in
glibc `inet_ntop6`. -/
def bestZeroRun (ws : List Nat) : Option (Nat × Nat) :=
  let st := ws.enum.foldl zeroRunStep (none, none)
  match mergeBest st.2 st.1 with
  | some b => if b.2 < 2 then none else some b
  | none => none

/-- Whether word index `i` falls inside the best zero run. -/
def inBest (best : Option (Nat × Nat)) (i : Nat) : Bool :=
  match best with
  | some b => decide (b.1 ≤ i) && decide (i < b.1 + b.2)
  | none => false

/-- Rendering of one 16-bit word by `sprintf "%x"`: lowercase hex with no
leading zeros (`"0"` for zero). -/
def hexStr (n : Nat) : String := String.mk (Nat.toDigits 16 n)

/-- The test in glibc `inet_ntop6` for an embedded IPv4 address at word index 6:
the best zero run starts at word 0 and has length 6, or length 7 with the
last word different from 1, or length 5 with word 5 equal to `0xffff`. -/
def ipv4Embedded (best : Option (Nat × Nat)) (w5 w7 : Nat) : Bool :=
  match best with
  | some b =>
    b.1 == 0 && (b.2 == 6 || (b.2 == 7 && w7 != 1) || (b.2 == 5 && w5 == 0xffff))
  | none => false

/-- Output loop of glibc `inet_ntop6` over word indices `i = 8 - fuel`:
words inside the best zero run print nothing (a lone `":"` at the start of
the run); every other word is preceded by `":"` unless it is the first, and
prints in `%x` form, except for the embedded-IPv4 case at index 6 which
prints the last four octets in dotted decimal and stops. -/
def ntop6Loop (ws : List Nat) (best : Option (Nat × Nat)) : Nat → String
  | 0 => ""
  | fuel + 1 =>
    let i := 8 - (fuel + 1)
    if inBest best i then
      (if i == (best.map Prod.fst).getD 9 then ":" else "") ++ ntop6Loop ws best fuel
    else if i == 6 && ipv4Embedded best (ws.getD 5 0) (ws.getD 7 0) then
      (if i != 0 then ":" else "") ++
        inet_ntop4 (ws.getD 6 0 / 256) (ws.getD 6 0 % 256)
          (ws.getD 7 0 / 256) (ws.getD 7 0 % 256)
    else
      (if i != 0 then ":" else "") ++ hexStr (ws.getD i 0) ++ ntop6Loop ws best fuel

/-- Models libc `inet_ntop` with `AF_INET6` (glibc `inet_ntop6`) on a list
of sixteen octets: group them into eight big-endian 16-bit words, compress
the first longest run of at least two zero words to `"::"`, and print the
remaining words in lowercase `%x` form separated by colons, with a trailing
`":"` when the compressed run reaches the end. -/
def inet_ntop6 (bs : List Nat) : String :=
  let ws := (List.range 8).map (fun i => 256 * bs.getD (2 * i) 0 + bs.getD (2 * i + 1) 0)
  let best := bestZeroRun ws
  ntop6Loop ws best 8 ++
    (match best with
     | some b => if b.1 + b.2 == 8 then ":" else ""
     | none => "")

/-- The process-wide mutable state of `ipmac.c`: `char *mac_buffer` (lazily
allocated, `none` models the initial NULL), and the global arrays
`char ip[INET_ADDRSTRLEN]` and `char ip6[INET6_ADDRSTRLEN]` (zero
initialised, modelled by their string contents). -/
structure Globals where
  mac_buffer : Option String
  ip : String
  ip6 : String
deriving DecidableEq

/-- The state of the globals at program start: `mac_buffer` is NULL and the
two address arrays hold empty strings. -/
def globals0 : Globals := ⟨none, "", ""⟩

/-- A `char *` value that `pcapRead` can store in a returned `struct pair`:
each one points at one of the three process-wide buffers. -/
inductive StrPtr
  | macBuf
  | ipBuf
  | ip6Buf
deriving DecidableEq

/-- Reading the string a pointer currently references; dereferencing
`mac_buffer` while it is still NULL yields `none`. -/
def deref (g : Globals) : StrPtr → Option String
  | StrPtr.macBuf => g.mac_buffer
  | StrPtr.ipBuf => some g.ip
  | StrPtr.ip6Buf => some g.ip6

/-- The `struct pair` that `pcapRead` returns (fields as used in `ipmac.c`:
`p->mac`, `p->ip`, `p->ip6`, each a `char *`; `none` models a NULL field). -/
structure PairPtr where
  mac : StrPtr
  ip : Option StrPtr
  ip6 : Option StrPtr
deriving DecidableEq

/-- Effect of calling `ether_mac` in `ipmac.c`: allocate `mac_buffer` on
first use, `sprintf` the colon-hex rendering of the six octets into it, and
return it (the returned pointer is always `mac_buffer`, i.e.
`StrPtr.macBuf` at the call site). -/
def ether_mac_call (g : Globals) (a0 a1 a2 a3 a4 a5 : Nat) : Globals :=
  { g with mac_buffer := some (ether_mac a0 a1 a2 a3 a4 a5) }

/-- `pcapRead` from `ipmac.c`, with the capture handle abstracted into the
result of `pcap_next` (`none` models a NULL packet, i.e. end of stream or
timeout).  For a packet: read the outer EtherType at offset 12 and return
NULL unless it is the VLAN marker; render the outer source address (bytes
6–11) into `mac_buffer`; re-read the EtherType at offset 16 (4 bytes past
the outer one).  For ARP, render the sender protocol address — bytes 32–35,
i.e. `arp_spa` of the `ether_arp` at offset 14 + 4 — into `ip` and return a
pair pointing at `mac_buffer` and `ip`.  For IPv6, render the 16 bytes at
offset 66 — `nd_ns_target` of the `nd_neighbor_solicit` at offset
14 + 40 + 4, whose 8-byte ICMPv6 header precedes the target — into `ip6`
and return a pair pointing at `mac_buffer` and `ip6`.  Any other inner
EtherType returns NULL. -/
def pcapRead (g : Globals) (packet : Option Buf) : Globals × Option PairPtr :=
  match packet with
  | none => (g, none)
  | some buf =>
    if be16 buf 12 ≠ ETHERTYPE_VLAN then (g, none)
    else
      let g1 := ether_mac_call g (buf 6) (buf 7) (buf 8) (buf 9) (buf 10) (buf 11)
      if be16 buf 16 = ETHERTYPE_ARP then
        ({ g1 with ip := inet_ntop4 (buf 32) (buf 33) (buf 34) (buf 35) },
         some ⟨StrPtr.macBuf, some StrPtr.ipBuf, none⟩)
      else if be16 buf 16 = ETHERTYPE_IPV6 then
        ({ g1 with ip6 := inet_ntop6 ((List.range' 66 16).map buf) },
         some ⟨StrPtr.macBuf, none, some StrPtr.ip6Buf⟩)
      else (g1, none)

/-- The value view of a returned `struct pair`: the strings its three
pointer fields reference in a given global state (`none` for a NULL
field or a NULL `mac_buffer`). -/
structure Pair where
  mac : Option String
  ip : Option String
  ip6 : Option String
deriving DecidableEq

/-- Dereference every field of a returned pair in state `g`. -/
def derefPair (g : Globals) (p : PairPtr) : Pair :=
  ⟨deref g p.mac, p.ip.bind (deref g), p.ip6.bind (deref g)⟩

/-- The pure decode-and-format view of `pcapRead`: run it on one packet
from the program-start globals and read out the strings the returned
pair references. -/
def decode (buf : Buf) : Option Pair :=
  match pcapRead globals0 (some buf) with
  | (g, r) => r.map (derefPair g)

/-- `pcapFilter` from `ipmac.c`, with the two libpcap calls abstracted into
whether they succeed.  The C function returns `-1` when `pcap_compile`
fails and `-1` when `pcap_setfilter` fails, but has no `return` statement
on the success path: it falls off the end of a non-void function, so the
value a caller receives there is undefined, modelled as `none`. -/
def pcapFilter (compile_ok setfilter_ok : Bool) : Option Int :=
  if compile_ok = false then some (-1)
  else if setfilter_ok = false then some (-1)
  else none

/-- A captured VLAN + ARP frame: destination `ff:…:ff`, source
`aa:bb:cc:dd:ee:ff`, VLAN tag `0x8100` with TCI 1, inner EtherType ARP,
an Ethernet/IPv4 ARP header whose sender hardware address
`11:22:33:44:55:66` deliberately differs from the outer source, and sender
protocol address `10.0.0.5`. -/
def arpFrameBytes : List Nat :=
  [0xff, 0xff, 0xff, 0xff, 0xff, 0xff,
   0xaa, 0xbb, 0xcc, 0xdd, 0xee, 0xff,
   0x81, 0x00,
   0x00, 0x01,
   0x08, 0x06,
   0x00, 0x01, 0x08, 0x00, 0x06, 0x04, 0x00, 0x01,
   0x11, 0x22, 0x33, 0x44, 0x55, 0x66,
   0x0a, 0x00, 0x00, 0x05]

/-- The ARP frame as a packet buffer (offsets past the list read zero
bytes). -/
def arpFrame : Buf := fun i => arpFrameBytes.getD i 0

/-- The same ARP frame with sender protocol address `10.0.0.6`. -/
def arpFrame2 : Buf := fun i => if i = 35 then 6 else arpFrame i

/-- The first 13 bytes of the ARP frame with caller-declared frame length
13: all bytes from offset 13 on belong to memory past the frame. -/
def arpFrameTrunc : Buf := fun i => if i < 13 then arpFrame i else 0

/-- A captured VLAN + IPv6 Neighbor-Solicitation frame: outer source
`aa:bb:cc:dd:ee:ff`, inner EtherType IPv6, a 40-byte IPv6 base header, an
8-byte ICMPv6 header (type 135, code 0) at offset 58, and target address
`fe80::1` at offset 66. -/
def nsFrameBytes : List Nat :=
  [0xff, 0xff, 0xff, 0xff, 0xff, 0xff,
   0xaa, 0xbb, 0xcc, 0xdd, 0xee, 0xff,
   0x81, 0x00,
   0x00, 0x01,
   0x86, 0xdd,
   0x60] ++ List.replicate 39 0 ++
  [0x87, 0x00, 0x00, 0x00, 0x00, 0x00, 0x00, 0x00,
   0xfe, 0x80, 0x00, 0x00, 0x00, 0x00, 0x00, 0x00,
   0x00, 0x00, 0x00, 0x00, 0x00, 0x00, 0x00, 0x01]

/-- The Neighbor-Solicitation frame as a packet buffer. -/
def nsFrame : Buf := fun i => nsFrameBytes.getD i 0

/-- A VLAN frame whose inner EtherType is plain IPv4 (`0x0800`), which
`pcapRead` does not handle. -/
def otherFrame : Buf := fun i => if i = 12 then 0x81 else if i = 16 then 0x08 else 0

/-- A character is a lowercase hexadecimal digit. -/
def isLowerHexDigit (c : Char) : Prop := c ∈ "0123456789abcdef".toList

/-- A string is a two-character sequence of lowercase hex digits. -/
def isHexPair (s : String) : Prop :=
  s.length = 2 ∧ ∀ c ∈ s.toList, isLowerHexDigit c

instance (c : Char) : Decidable (isLowerHexDigit c) := by
  unfold isLowerHexDigit
  infer_instance

/-- Helper: `sprintf "%02x"` of any byte value is a two-character lowercase
hex string. -/
theorem hex2_isHexPair (b : Nat) (hb : b < 256) : isHexPair (hex2 b) := by
  have h1 : b / 16 < 16 := by omega
  have h2 : b % 16 < 16 := Nat.mod_lt _ (by norm_num)
  have hgen : ∀ n, n < 16 → isLowerHexDigit (hexChar n) := by decide
  constructor
  · rfl
  · intro c hc
    simp [hex2, String.toList] at hc
    rcases hc with h | h
    · rw [h]; exact hgen _ h1
    · rw [h]; exact hgen _ h2

/-- Claim C1 (code bug): `pcapRead` never consults the caller-declared
frame length (`header.caplen`), so a 13-byte frame is decoded from bytes
past its declared end.  Witnessed here: the full ARP capture buffer and a
buffer that agrees with it on the 13 bytes of the declared frame but is
zero beyond produce different outcomes — a pair versus no-match — so the
result of `decode` on a frame shorter than 14 bytes depends on memory past
the frame, contradicting both parts of the claim. -/
theorem truncated_frame_read_bug :
    (∀ i, i < 13 → arpFrame i = arpFrameTrunc i) ∧
    decode arpFrame ≠ none ∧ decode arpFrameTrunc = none := by
  refine ⟨?_, ?_, ?_⟩
  · intro i hi
    simp [arpFrameTrunc, hi]
  · decide
  · rfl

/-- Claim C2: for every frame whose outer EtherType (offset 12) is the VLAN
marker and whose inner EtherType (offset 16) is ARP, `decode` returns a
pair whose IPv4 string renders the ARP sender protocol address — bytes
32–35, i.e. offset 14 inside the ARP payload that starts at byte 18 — and
whose MAC renders the outer Ethernet source field, bytes 6–11 of the
frame (not the ARP sender-hardware field at bytes 24–29). -/
theorem decode_vlan_arp (buf : Buf)
    (hv : be16 buf 12 = ETHERTYPE_VLAN) (ha : be16 buf 16 = ETHERTYPE_ARP) :
    decode buf = some ⟨some (ether_mac (buf 6) (buf 7) (buf 8) (buf 9) (buf 10) (buf 11)),
      some (inet_ntop4 (buf 32) (buf 33) (buf 34) (buf 35)), none⟩ := by
  simp [decode, pcapRead, hv, ha, ether_mac_call, derefPair, deref, globals0]

/-- Witness for C2: the concrete VLAN + ARP frame with sender protocol
address 10.0.0.5, outer source `aa:bb:cc:dd:ee:ff` and a different ARP
sender-hardware field (`11:22:33:44:55:66`) decodes to exactly the pair
the claim gives as its example. -/
theorem decode_vlan_arp_witness :
    decode arpFrame = some ⟨some "aa:bb:cc:dd:ee:ff", some "10.0.0.5", none⟩ :=
  (decode_vlan_arp arpFrame (by decide) (by decide)).trans (by decide)

/-- Counterexample for C3 as stated: the claim places the 16 bytes of the
target address at fixed offset 58, but on the concrete NS frame `decode`
returns `fe80::1` — the 16 bytes at offset 66 — while the 16 bytes found
at offset 58 render to a different address. -/
theorem ns_target_offset58_counterexample :
    decode nsFrame = some ⟨some "aa:bb:cc:dd:ee:ff", none, some "fe80::1"⟩ ∧
    inet_ntop6 ((List.range' 58 16).map nsFrame) ≠ "fe80::1" := by
  refine ⟨by decide, by decide⟩

/-- Claim C3 (amended): for every VLAN frame whose inner EtherType is IPv6,
`decode` interprets offset 58 (14-byte Ethernet header + 4-byte VLAN tag +
40-byte IPv6 base header) as a Neighbor-Solicitation message and reads its
target-address field — the 16 bytes at offset 66, past the 8-byte ICMPv6
header — returning a pair with the IPv6 variant populated and the MAC
taken from the outer Ethernet source field.  No hypothesis constrains the
ICMPv6 type/code bytes at offsets 58–59: the code never validates them. -/
theorem decode_vlan_ipv6_target (buf : Buf)
    (hv : be16 buf 12 = ETHERTYPE_VLAN) (hi : be16 buf 16 = ETHERTYPE_IPV6) :
    decode buf = some ⟨some (ether_mac (buf 6) (buf 7) (buf 8) (buf 9) (buf 10) (buf 11)),
      none, some (inet_ntop6 ((List.range' 66 16).map buf))⟩ := by
  simp [decode, pcapRead, hv, hi, ether_mac_call, derefPair, deref, globals0,
    ETHERTYPE_ARP, ETHERTYPE_IPV6]

/-- Witness for the amended C3: the concrete VLAN + Neighbor-Solicitation
frame with target `fe80::1` decodes to the pair with the IPv6 variant set
and the outer source MAC. -/
theorem decode_vlan_ipv6_target_witness :
    decode nsFrame = some ⟨some "aa:bb:cc:dd:ee:ff", none, some "fe80::1"⟩ :=
  (decode_vlan_ipv6_target nsFrame (by decide) (by decide)).trans (by decide)

/-- Claim C4: `decode` yields no-match for every frame whose outer
EtherType is not the VLAN marker, and for every VLAN frame whose inner
EtherType is neither ARP nor IPv6, regardless of payload content.  The
codomain of `decode` is an option, so `none` is the only non-pair outcome
— no other error value exists. -/
theorem decode_nomatch_other_ethertype (buf : Buf) :
    (be16 buf 12 ≠ ETHERTYPE_VLAN → decode buf = none) ∧
    (be16 buf 12 = ETHERTYPE_VLAN → be16 buf 16 ≠ ETHERTYPE_ARP →
      be16 buf 16 ≠ ETHERTYPE_IPV6 → decode buf = none) := by
  constructor
  · intro h
    simp [decode, pcapRead, h]
  · intro hv ha hi
    simp [decode, pcapRead, hv, ha, hi]

/-- Witness for C4: the all-zero frame (outer EtherType 0) and a VLAN frame
with inner EtherType IPv4 (0x0800) both decode to no-match. -/
theorem decode_nomatch_other_ethertype_witness :
    decode (fun _ => 0) = none ∧ decode otherFrame = none :=
  ⟨(decode_nomatch_other_ethertype (fun _ => 0)).1 (by decide),
   (decode_nomatch_other_ethertype otherFrame).2 (by decide) (by decide) (by decide)⟩

/-- Claim C5 (code bug): `pcapRead` writes its result strings into the
process-wide buffers and returns pointers to them, so a call does mutate
state outside its own result and a later call overwrites the text of an
earlier result.  Witnessed here: the first call returns a pair pointing at
the shared `ip` buffer, which then holds `10.0.0.5`; after a second call on
a frame with sender 10.0.0.6, the storage the first result still points at
holds `10.0.0.6` instead. -/
theorem static_buffer_overwrite_bug :
    (pcapRead globals0 (some arpFrame)).2 = some ⟨StrPtr.macBuf, some StrPtr.ipBuf, none⟩ ∧
    deref (pcapRead globals0 (some arpFrame)).1 StrPtr.ipBuf = some "10.0.0.5" ∧
    deref (pcapRead (pcapRead globals0 (some arpFrame)).1 (some arpFrame2)).1 StrPtr.ipBuf
      = some "10.0.0.6" := by
  refine ⟨by decide, by decide, by decide⟩

/-- Claim C6 (code bug): decoding the same frame twice yields results that
are value-equal — the dereferenced pairs agree — but that alias each other:
both returned pairs hold the very same pointers into the shared static
buffers (`mac_buffer` and `ip`), contradicting the no-aliasing half of the
claim. -/
theorem double_decode_value_equal_but_aliased :
    (pcapRead globals0 (some arpFrame)).2 = some ⟨StrPtr.macBuf, some StrPtr.ipBuf, none⟩ ∧
    (pcapRead (pcapRead globals0 (some arpFrame)).1 (some arpFrame)).2
      = (pcapRead globals0 (some arpFrame)).2 ∧
    Option.map (derefPair (pcapRead (pcapRead globals0 (some arpFrame)).1 (some arpFrame)).1)
        (pcapRead (pcapRead globals0 (some arpFrame)).1 (some arpFrame)).2
      = Option.map (derefPair (pcapRead globals0 (some arpFrame)).1)
        (pcapRead globals0 (some arpFrame)).2 := by
  refine ⟨by decide, by decide, by decide⟩

/-- Claim C7: whenever `decode` produces a pair, exactly one of its IPv4
and IPv6 fields is set; the no-match outcome is `none`, a value of the
option type distinct from every pair, not a pair with empty fields. -/
theorem decode_exactly_one_address (buf : Buf) (p : Pair) (hp : decode buf = some p) :
    (p.ip ≠ none ∧ p.ip6 = none) ∨ (p.ip = none ∧ p.ip6 ≠ none) := by
  by_cases hv : be16 buf 12 = ETHERTYPE_VLAN
  · by_cases ha : be16 buf 16 = ETHERTYPE_ARP
    · simp [decode, pcapRead, hv, ha, ether_mac_call, derefPair, deref, globals0] at hp
      left
      rw [← hp]
      simp
    · by_cases hi : be16 buf 16 = ETHERTYPE_IPV6
      · simp [decode, pcapRead, hv, ha, hi, ether_mac_call, derefPair, deref, globals0,
          ETHERTYPE_ARP, ETHERTYPE_IPV6] at hp
        right
        rw [← hp]
        simp
      · simp [decode, pcapRead, hv, ha, hi] at hp
  · simp [decode, pcapRead, hv] at hp

/-- Witness for C7: the pair decoded from the concrete ARP frame has its
IPv4 field set and its IPv6 field empty. -/
theorem decode_exactly_one_address_witness :
    ((some "10.0.0.5" : Option String) ≠ none ∧ (none : Option String) = none) ∨
    ((some "10.0.0.5" : Option String) = none ∧ (none : Option String) ≠ none) :=
  decode_exactly_one_address arpFrame ⟨some "aa:bb:cc:dd:ee:ff", some "10.0.0.5", none⟩
    (by decide)

/-- Claim C8: for every 6-byte input, `ether_mac` renders six lowercase
two-digit hex octet pairs joined by colons, and on `[0,0,0,0,0,0]` it
yields `"00:00:00:00:00:00"`. -/
theorem ether_mac_colon_hex (a0 a1 a2 a3 a4 a5 : Nat) (h0 : a0 < 256) (h1 : a1 < 256)
    (h2 : a2 < 256) (h3 : a3 < 256) (h4 : a4 < 256) (h5 : a5 < 256) :
    (∃ p0 p1 p2 p3 p4 p5, isHexPair p0 ∧ isHexPair p1 ∧ isHexPair p2 ∧ isHexPair p3 ∧
      isHexPair p4 ∧ isHexPair p5 ∧
      ether_mac a0 a1 a2 a3 a4 a5
        = p0 ++ ":" ++ p1 ++ ":" ++ p2 ++ ":" ++ p3 ++ ":" ++ p4 ++ ":" ++ p5) ∧
    ether_mac 0 0 0 0 0 0 = "00:00:00:00:00:00" :=
  ⟨⟨hex2 a0, hex2 a1, hex2 a2, hex2 a3, hex2 a4, hex2 a5,
    hex2_isHexPair a0 h0, hex2_isHexPair a1 h1, hex2_isHexPair a2 h2, hex2_isHexPair a3 h3,
    hex2_isHexPair a4 h4, hex2_isHexPair a5 h5, rfl⟩, rfl⟩

/-- Witness for C8 at the bytes `aa bb cc dd ee ff`. -/
theorem ether_mac_colon_hex_witness :
    (∃ p0 p1 p2 p3 p4 p5, isHexPair p0 ∧ isHexPair p1 ∧ isHexPair p2 ∧ isHexPair p3 ∧
      isHexPair p4 ∧ isHexPair p5 ∧
      ether_mac 0xaa 0xbb 0xcc 0xdd 0xee 0xff
        = p0 ++ ":" ++ p1 ++ ":" ++ p2 ++ ":" ++ p3 ++ ":" ++ p4 ++ ":" ++ p5) ∧
    ether_mac 0 0 0 0 0 0 = "00:00:00:00:00:00" :=
  ether_mac_colon_hex 0xaa 0xbb 0xcc 0xdd 0xee 0xff (by decide) (by decide) (by decide)
    (by decide) (by decide) (by decide)

/-- Claim C9 (code bug): `pcapFilter` returns the defined error value `-1`
on each failure path, but on the path where both `pcap_compile` and
`pcap_setfilter` succeed it falls off the end of a non-void function
without a return statement, so no defined Ok value exists (`none` models
the undefined return). -/
theorem pcapFilter_missing_success_return :
    pcapFilter true true = none ∧ pcapFilter false true = some (-1) ∧
    pcapFilter true false = some (-1) ∧ pcapFilter false false = some (-1) := by
  refine ⟨rfl, rfl, rfl, rfl⟩

/-- Claim C10: `pcapRead` returns the same NULL outcome when `pcap_next`
yields no packet as it does for any frame whose outer EtherType is not the
VLAN marker, so the return value alone cannot distinguish end-of-stream
from no-match. -/
theorem eos_and_nomatch_indistinguishable (g : Globals) (buf : Buf)
    (h : be16 buf 12 ≠ ETHERTYPE_VLAN) :
    (pcapRead g none).2 = none ∧ (pcapRead g (some buf)).2 = none ∧
    (pcapRead g none).2 = (pcapRead g (some buf)).2 := by
  refine ⟨rfl, ?_, ?_⟩ <;> simp [pcapRead, h]

/-- Witness for C10: from the program-start globals, end-of-stream and the
all-zero frame both yield the NULL result. -/
theorem eos_and_nomatch_indistinguishable_witness :
    (pcapRead globals0 none).2 = none ∧ (pcapRead globals0 (some (fun _ => 0))).2 = none ∧
    (pcapRead globals0 none).2 = (pcapRead globals0 (some (fun _ => 0))).2 :=
  eos_and_nomatch_indistinguishable globals0 (fun _ => 0) (by decide)

end Ipmac
